import Mathlib

/-!
Verification of the task-manager authorization model.

The authority is the SQL migration (schema + row-level-security policies)
together with the client pages (TaskModal, Trash, the profile page).
Rows are embedded as Lean structures; uuids and timestamps are `Nat`.
Each `CREATE POLICY` becomes a Bool-valued function named after the policy;
combined per-table decisions follow PostgreSQL semantics for permissive
policies: USING clauses are disjoined over the old row, WITH CHECK clauses
are disjoined over the new row, and a statement whose WHERE clause reads
the row (the client always filters with `.eq(...)`) additionally requires
the old row to pass the SELECT policies.
-/

/-- profiles.role: CHECK (role IN ('admin', 'employee')). -/
inductive Role where
  | admin
  | employee
deriving DecidableEq, Repr

/-- profiles.status: CHECK (status IN ('active', 'disabled')). -/
inductive AccountStatus where
  | active
  | disabled
deriving DecidableEq, Repr

/-- tasks.status: CHECK (status IN ('to_do', 'in_progress', 'done')). -/
inductive TaskStatus where
  | to_do
  | in_progress
  | done
deriving DecidableEq, Repr

/-- tasks.priority: CHECK (priority IN ('low', 'medium', 'high')). -/
inductive Priority where
  | low
  | medium
  | high
deriving DecidableEq, Repr

/-- tasks.category: CHECK (category IN ('work', 'personal')). -/
inductive Category where
  | work
  | personal
deriving DecidableEq, Repr

/-- A row of the profiles table (timestamps omitted: no claim reads them). -/
structure ProfileRow where
  id : Nat
  username : String
  role : Role
  status : AccountStatus
deriving DecidableEq, Repr

/-- A row of the tasks table. -/
structure TaskRow where
  id : Nat
  title : String
  description : String
  status : TaskStatus
  priority : Priority
  due_date : Option Nat
  category : Category
  tags : List String
  created_by : Option Nat
  is_deleted : Bool
  deleted_at : Option Nat
deriving DecidableEq, Repr

/-- A row of the task_assignees table. -/
structure AssigneeRow where
  task_id : Nat
  user_id : Nat
deriving DecidableEq, Repr

/-- A row of the task_comments table. -/
structure CommentRow where
  id : Nat
  task_id : Nat
  user_id : Nat
  content : String
deriving DecidableEq, Repr

/-- A row of the task_attachments table. -/
structure AttachmentRow where
  id : Nat
  task_id : Nat
  file_name : String
  file_url : String
  uploaded_by : Option Nat
deriving DecidableEq, Repr

/-- The database state: the five tables of the migration. -/
structure DB where
  profiles : List ProfileRow
  tasks : List TaskRow
  task_assignees : List AssigneeRow
  task_comments : List CommentRow
  task_attachments : List AttachmentRow
deriving DecidableEq, Repr

/-- The admin-check subquery used throughout the policies:
EXISTS (SELECT 1 FROM profiles WHERE profiles.id = auth.uid() AND profiles.role = 'admin'). -/
def isAdminUid (db : DB) (uid : Nat) : Bool :=
  db.profiles.any (fun p => decide (p.id = uid) && decide (p.role = Role.admin))

/-- The assignee-check subquery of the employee update policy:
EXISTS (SELECT 1 FROM task_assignees WHERE task_id = tasks.id AND user_id = auth.uid()). -/
def isAssignee (db : DB) (taskId uid : Nat) : Bool :=
  db.task_assignees.any (fun a => decide (a.task_id = taskId) && decide (a.user_id = uid))

/-- The parent-task subquery of the comment and attachment policies:
EXISTS (SELECT 1 FROM tasks WHERE tasks.id = task_id AND tasks.is_deleted = false). -/
def parentNotDeleted (db : DB) (taskId : Nat) : Bool :=
  db.tasks.any (fun t => decide (t.id = taskId) && decide (t.is_deleted = false))

/-- Policy "Users can view non-deleted tasks": USING (is_deleted = false). -/
def tasksSelectNonDeleted (t : TaskRow) : Bool :=
  decide (t.is_deleted = false)

/-- Policy "Users can view deleted tasks": USING (is_deleted = true AND admin subquery). -/
def tasksSelectDeleted (db : DB) (uid : Nat) (t : TaskRow) : Bool :=
  decide (t.is_deleted = true) && isAdminUid db uid

/-- SELECT decision on tasks: disjunction of the two permissive SELECT policies. -/
def taskSelectAllowed (db : DB) (uid : Nat) (t : TaskRow) : Bool :=
  tasksSelectNonDeleted t || tasksSelectDeleted db uid t

/-- Policy "Admins can create tasks": WITH CHECK (admin subquery). -/
def taskInsertAllowed (db : DB) (uid : Nat) : Bool :=
  isAdminUid db uid

/-- Policy "Admins can update any task": USING and WITH CHECK are both the admin
subquery, so both sides of the decision reduce to the same function. -/
def tasksUpdateAdmin (db : DB) (uid : Nat) : Bool :=
  isAdminUid db uid

/-- Policy "Employees can update assigned task status", USING clause:
assignee subquery AND NOT is_deleted, on the old row. -/
def tasksUpdateEmployeeUsing (db : DB) (uid : Nat) (t : TaskRow) : Bool :=
  isAssignee db t.id uid && !t.is_deleted

/-- Policy "Employees can update assigned task status", WITH CHECK clause:
assignee subquery AND NOT is_deleted, on the new row. -/
def tasksUpdateEmployeeCheck (db : DB) (uid : Nat) (t : TaskRow) : Bool :=
  isAssignee db t.id uid && !t.is_deleted

/-- UPDATE decision on tasks for the client statements (which filter by id, so the
old row must also pass the SELECT policies): some USING holds on the old row,
some WITH CHECK holds on the new row. -/
def taskUpdateAllowed (db : DB) (uid : Nat) (told tnew : TaskRow) : Bool :=
  taskSelectAllowed db uid told
  && (tasksUpdateAdmin db uid || tasksUpdateEmployeeUsing db uid told)
  && (tasksUpdateAdmin db uid || tasksUpdateEmployeeCheck db uid tnew)

/-- DELETE decision on tasks. The migration declares no DELETE policy on the
tasks table, and row-level security denies any action with no matching policy,
so the decision is constantly false (the header comment of the migration and
the Trash page nevertheless expect admins to purge trashed tasks). -/
def taskDeleteAllowed (_db : DB) (_uid : Nat) (_t : TaskRow) : Bool :=
  false

/-- Policy "Users can view task assignments": USING (true). -/
def assigneeSelectAllowed (_db : DB) (_uid : Nat) (_a : AssigneeRow) : Bool :=
  true

/-- Policy "Admins can create task assignments": WITH CHECK (admin subquery). -/
def assigneeInsertAllowed (db : DB) (uid : Nat) (_a : AssigneeRow) : Bool :=
  isAdminUid db uid

/-- Policy "Admins can delete task assignments": USING (admin subquery);
the row is also read by the statement's filter but the SELECT policy is (true). -/
def assigneeDeleteAllowed (db : DB) (uid : Nat) (a : AssigneeRow) : Bool :=
  isAdminUid db uid && assigneeSelectAllowed db uid a

/-- Policy "Users can view comments": USING (parent-task subquery, not deleted). -/
def commentSelectAllowed (db : DB) (_uid : Nat) (c : CommentRow) : Bool :=
  parentNotDeleted db c.task_id

/-- Policy "Users can create comments": WITH CHECK (parent-task subquery, not
deleted). Note the policy does not require user_id = auth.uid(). -/
def commentInsertAllowed (db : DB) (_uid : Nat) (c : CommentRow) : Bool :=
  parentNotDeleted db c.task_id

/-- UPDATE decision on comments for the client statements: the old row must pass
the SELECT policy (the statement filters on the row), the USING of "Users can
update own comments" (user_id = auth.uid()) on the old row, and its WITH CHECK
on the new row. -/
def commentUpdateAllowed (db : DB) (uid : Nat) (cold cnew : CommentRow) : Bool :=
  commentSelectAllowed db uid cold
  && decide (cold.user_id = uid)
  && decide (cnew.user_id = uid)

/-- DELETE decision on comments for the client statements: SELECT visibility of
the row plus the USING of "Users can delete own comments" (user_id = auth.uid()). -/
def commentDeleteAllowed (db : DB) (uid : Nat) (c : CommentRow) : Bool :=
  commentSelectAllowed db uid c && decide (c.user_id = uid)

/-- Policy "Users can view attachments": USING (parent-task subquery, not deleted). -/
def attachmentSelectAllowed (db : DB) (_uid : Nat) (a : AttachmentRow) : Bool :=
  parentNotDeleted db a.task_id

/-- Policy "Users can upload attachments": WITH CHECK (parent-task subquery). -/
def attachmentInsertAllowed (db : DB) (_uid : Nat) (a : AttachmentRow) : Bool :=
  parentNotDeleted db a.task_id

/-- DELETE decision on attachments: SELECT visibility plus the disjunction of
"Users can delete own attachments" (uploaded_by = auth.uid()) and
"Admins can delete any attachment" (admin subquery). -/
def attachmentDeleteAllowed (db : DB) (uid : Nat) (a : AttachmentRow) : Bool :=
  attachmentSelectAllowed db uid a
  && (decide (a.uploaded_by = some uid) || isAdminUid db uid)

/-- Policy "Users can view active profiles": USING (status = 'active' OR id = auth.uid()). -/
def profileSelectAllowed (_db : DB) (uid : Nat) (p : ProfileRow) : Bool :=
  decide (p.status = AccountStatus.active) || decide (p.id = uid)

/-- Policy "Users can insert own profile": WITH CHECK (id = auth.uid()). -/
def profileInsertAllowed (_db : DB) (uid : Nat) (p : ProfileRow) : Bool :=
  decide (p.id = uid)

/-- UPDATE decision on profiles for the client statements: SELECT visibility of
the old row, plus the disjunction of "Users can update own profile"
(USING and WITH CHECK both id = auth.uid()) and "Admins can update any profile"
(USING and WITH CHECK both the admin subquery). -/
def profileUpdateAllowed (db : DB) (uid : Nat) (pold pnew : ProfileRow) : Bool :=
  profileSelectAllowed db uid pold
  && (decide (pold.id = uid) || isAdminUid db uid)
  && (decide (pnew.id = uid) || isAdminUid db uid)

/-- Claim C1: a task row with is_deleted = true is SELECT-visible exactly to admin
subjects, and a task row with is_deleted = false is SELECT-visible to every
authenticated subject. -/
theorem c1_task_select_visibility (db : DB) (uid : Nat) (t : TaskRow) :
    (t.is_deleted = true → taskSelectAllowed db uid t = isAdminUid db uid)
    ∧ (t.is_deleted = false → taskSelectAllowed db uid t = true) := by
  constructor
  · intro h
    simp [taskSelectAllowed, tasksSelectNonDeleted, tasksSelectDeleted, h]
  · intro h
    simp [taskSelectAllowed, tasksSelectNonDeleted, tasksSelectDeleted, h]

/-- A deleted and a non-deleted task row used to instantiate C1. -/
def taskDeletedSample : TaskRow :=
  { id := 11, title := "old", description := "", status := TaskStatus.done,
    priority := Priority.low, due_date := none, category := Category.work,
    tags := [], created_by := some 1, is_deleted := true, deleted_at := some 5 }

def taskActiveSample : TaskRow :=
  { id := 10, title := "Write report", description := "", status := TaskStatus.to_do,
    priority := Priority.high, due_date := none, category := Category.work,
    tags := [], created_by := some 1, is_deleted := false, deleted_at := none }

/-- The profile row of employee 2. -/
def employeeProfileSample : ProfileRow :=
  { id := 2, username := "bob", role := Role.employee, status := AccountStatus.active }

/-- A comment authored by employee 2 whose parent task 11 is soft-deleted. -/
def commentOnDeletedSample : CommentRow :=
  { id := 100, task_id := 11, user_id := 2, content := "on deleted task" }

/-- A small database: admin 1, employees 2 and 3; task 10 active and assigned to 2,
task 11 soft-deleted; a comment on each task. -/
def dbSample : DB :=
  { profiles :=
      [ { id := 1, username := "alice", role := Role.admin, status := AccountStatus.active },
        employeeProfileSample,
        { id := 3, username := "carol", role := Role.employee, status := AccountStatus.active } ],
    tasks := [taskActiveSample, taskDeletedSample],
    task_assignees := [ { task_id := 10, user_id := 2 } ],
    task_comments := [commentOnDeletedSample,
        { id := 101, task_id := 10, user_id := 3, content := "on active task" } ],
    task_attachments := [] }

/-- Witness for C1: employee 2 cannot see the deleted task, admin 1 can,
and everyone sees the active task. -/
theorem c1_task_select_visibility_witness :
    taskSelectAllowed dbSample 2 taskDeletedSample = isAdminUid dbSample 2
    ∧ taskSelectAllowed dbSample 1 taskDeletedSample = isAdminUid dbSample 1
    ∧ taskSelectAllowed dbSample 2 taskActiveSample = true :=
  ⟨(c1_task_select_visibility dbSample 2 taskDeletedSample).1 (by decide),
   (c1_task_select_visibility dbSample 1 taskDeletedSample).1 (by decide),
   (c1_task_select_visibility dbSample 2 taskActiveSample).2 (by decide)⟩

/-- TaskModal.handleSubmit, editing branch for a non-admin subject:
updateData = \x7b status: formData.status \x7d, so only the status column is sent. -/
def employeeStatusUpdate (s : TaskStatus) (t : TaskRow) : TaskRow :=
  { t with status := s }

/-- TaskModal.handleDelete: update \x7b is_deleted: true, deleted_at: now \x7d. -/
def softDeleteUpdate (now : Nat) (t : TaskRow) : TaskRow :=
  { t with is_deleted := true, deleted_at := some now }

/-- Trash.handleRestore: update \x7b is_deleted: false, deleted_at: null \x7d. -/
def restoreUpdate (t : TaskRow) : TaskRow :=
  { t with is_deleted := false, deleted_at := none }

/-- The client UPDATE statement on tasks filtered by id: each row with the given
id that the policies allow is replaced by f of itself; every other row is left
unchanged (a row the policies reject is not updated). -/
def applyTaskUpdate (db : DB) (uid : Nat) (taskId : Nat) (f : TaskRow → TaskRow) : DB :=
  { db with
    tasks := db.tasks.map (fun t =>
      if decide (t.id = taskId) && taskUpdateAllowed db uid t (f t) then f t else t) }

/-- If no task row with the given id passes the policies for the attempted
update, the client statement leaves the database unchanged. -/
theorem applyTaskUpdate_eq_self (db : DB) (uid : Nat) (taskId : Nat)
    (f : TaskRow → TaskRow)
    (h : ∀ t ∈ db.tasks, t.id = taskId → taskUpdateAllowed db uid t (f t) = false) :
    applyTaskUpdate db uid taskId f = db := by
  unfold applyTaskUpdate
  have hmap : ∀ ts : List TaskRow,
      (∀ t ∈ ts, t.id = taskId → taskUpdateAllowed db uid t (f t) = false) →
      ts.map (fun t =>
        if decide (t.id = taskId) && taskUpdateAllowed db uid t (f t) then f t else t)
      = ts := by
    intro ts
    induction ts with
    | nil => intro _; rfl
    | cons t ts ih =>
      intro hts
      have hhead :
          (if decide (t.id = taskId) && taskUpdateAllowed db uid t (f t) then f t else t)
          = t := by
        by_cases hid : t.id = taskId
        · simp [hts t (by simp) hid]
        · simp [hid]
      simp only [List.map_cons, hhead]
      rw [ih (fun x hx hx2 => hts x (by simp [hx]) hx2)]
  rw [hmap db.tasks h]

/-- If every task row carrying the given id is soft-deleted, the parent-task
subquery of the comment and attachment policies returns false. -/
theorem parentNotDeleted_eq_false_of (db : DB) (taskId : Nat)
    (h : ∀ t ∈ db.tasks, t.id = taskId → t.is_deleted = true) :
    parentNotDeleted db taskId = false := by
  unfold parentNotDeleted
  rw [List.any_eq_false]
  intro t ht
  simp only [Bool.and_eq_true, decide_eq_true_eq, not_and]
  intro h1 h2
  rw [h t ht h1] at h2
  exact absurd h2 (by simp)

/-- Claim C2: when the parent task of a comment is soft-deleted, the read,
create, update and delete decisions on that comment are all deny, for every
subject (the comment author included). -/
theorem c2_comment_on_deleted_task_locked (db : DB) (c : CommentRow)
    (h : ∀ t ∈ db.tasks, t.id = c.task_id → t.is_deleted = true)
    (uid : Nat) (cnew : CommentRow) :
    commentSelectAllowed db uid c = false
    ∧ commentInsertAllowed db uid c = false
    ∧ commentUpdateAllowed db uid c cnew = false
    ∧ commentDeleteAllowed db uid c = false := by
  have hp : parentNotDeleted db c.task_id = false :=
    parentNotDeleted_eq_false_of db c.task_id h
  refine ⟨?_, ?_, ?_, ?_⟩ <;>
    simp [commentSelectAllowed, commentInsertAllowed, commentUpdateAllowed,
      commentDeleteAllowed, hp]

/-- Witness for C2: comment 100 sits on the soft-deleted task 11, and even its
author (employee 2) is denied all four operations. -/
theorem c2_comment_on_deleted_task_locked_witness :
    commentSelectAllowed dbSample 2 commentOnDeletedSample = false
    ∧ commentInsertAllowed dbSample 2 commentOnDeletedSample = false
    ∧ commentUpdateAllowed dbSample 2 commentOnDeletedSample commentOnDeletedSample = false
    ∧ commentDeleteAllowed dbSample 2 commentOnDeletedSample = false :=
  c2_comment_on_deleted_task_locked dbSample commentOnDeletedSample
    (by decide) 2 commentOnDeletedSample

/-- Claim C4: an employee subject who is not in the assignee set of the targeted
task cannot change its status: the update statement is rejected and the
database (in particular the task row) is unchanged. -/
theorem c4_nonassignee_status_update_rejected (db : DB) (uid taskId : Nat)
    (s : TaskStatus)
    (hadmin : isAdminUid db uid = false)
    (hassign : isAssignee db taskId uid = false) :
    applyTaskUpdate db uid taskId (employeeStatusUpdate s) = db := by
  apply applyTaskUpdate_eq_self
  intro t ht hid
  simp [taskUpdateAllowed, tasksUpdateAdmin, tasksUpdateEmployeeUsing,
    tasksUpdateEmployeeCheck, employeeStatusUpdate, hadmin, hid, hassign]

/-- Witness for C4: employee 3 is not assigned to task 10, and the attempt to set
its status to in_progress leaves the database unchanged. -/
theorem c4_nonassignee_status_update_rejected_witness :
    isAdminUid dbSample 3 = false
    ∧ isAssignee dbSample 10 3 = false
    ∧ applyTaskUpdate dbSample 3 10 (employeeStatusUpdate TaskStatus.in_progress)
        = dbSample :=
  ⟨by decide, by decide,
   c4_nonassignee_status_update_rejected dbSample 3 10 TaskStatus.in_progress
     (by decide) (by decide)⟩

/-- Claim C7: an update permitted to a non-admin subject (hence through the
employee policy) always leaves the new row with is_deleted = false: the
employee path can never soft-delete a task. -/
theorem c7_employee_path_preserves_not_deleted (db : DB) (uid : Nat)
    (told tnew : TaskRow)
    (hadmin : isAdminUid db uid = false)
    (hupd : taskUpdateAllowed db uid told tnew = true) :
    tnew.is_deleted = false := by
  simp only [taskUpdateAllowed, tasksUpdateAdmin, tasksUpdateEmployeeUsing,
    tasksUpdateEmployeeCheck, hadmin, Bool.false_or, Bool.and_eq_true,
    Bool.not_eq_true'] at hupd
  exact hupd.2.2

/-- Witness for C7: employee 2 moving assigned task 10 to done is permitted and
the resulting row is still not deleted. -/
theorem c7_employee_path_preserves_not_deleted_witness :
    (employeeStatusUpdate TaskStatus.done taskActiveSample).is_deleted = false :=
  c7_employee_path_preserves_not_deleted dbSample 2 taskActiveSample
    (employeeStatusUpdate TaskStatus.done taskActiveSample) (by decide) (by decide)

/-- Task 10 with only its title changed. -/
def taskTitleHacked : TaskRow :=
  { taskActiveSample with title := "changed by employee" }

/-- Counterexample to C3 as stated: the policy layer does permit the assigned
employee 2 (not an admin) to change the title of the non-deleted task 10, so
the authorization layer alone does not confine that subject to the status
column. -/
theorem c3_counterexample_title_change_permitted :
    isAdminUid dbSample 2 = false
    ∧ taskActiveSample.is_deleted = false
    ∧ isAssignee dbSample taskActiveSample.id 2 = true
    ∧ taskUpdateAllowed dbSample 2 taskActiveSample taskTitleHacked = true
    ∧ taskTitleHacked.title ≠ taskActiveSample.title := by
  refine ⟨by decide, by decide, by decide, by decide, ?_⟩
  decide

/-- Claim C3 (amended): an employee in the assignee set of a non-deleted task is
permitted to set the status to any value whatever the previous one; the client
employee path submits only the status column, so title, priority, due_date,
category and tags are unchanged on that path, and a task-row update never
touches the task_assignees table; the policy layer itself does not restrict
which task columns that subject changes. -/
theorem c3_assigned_employee_status_update (db : DB) (uid : Nat) (t : TaskRow)
    (s : TaskStatus)
    (hassign : isAssignee db t.id uid = true)
    (hdel : t.is_deleted = false) :
    taskUpdateAllowed db uid t (employeeStatusUpdate s t) = true
    ∧ (employeeStatusUpdate s t).status = s
    ∧ (employeeStatusUpdate s t).title = t.title
    ∧ (employeeStatusUpdate s t).priority = t.priority
    ∧ (employeeStatusUpdate s t).due_date = t.due_date
    ∧ (employeeStatusUpdate s t).category = t.category
    ∧ (employeeStatusUpdate s t).tags = t.tags
    ∧ (applyTaskUpdate db uid t.id (employeeStatusUpdate s)).task_assignees
        = db.task_assignees := by
  refine ⟨?_, rfl, rfl, rfl, rfl, rfl, rfl, rfl⟩
  simp [taskUpdateAllowed, taskSelectAllowed, tasksSelectNonDeleted,
    tasksSelectDeleted, tasksUpdateAdmin, tasksUpdateEmployeeUsing,
    tasksUpdateEmployeeCheck, employeeStatusUpdate, hassign, hdel]

/-- Witness for the amended C3: assigned employee 2 may move task 10 from to_do
straight to done, the submitted row differs from the old one only in status,
and the assignment table is untouched. -/
theorem c3_assigned_employee_status_update_witness :
    taskUpdateAllowed dbSample 2 taskActiveSample
      (employeeStatusUpdate TaskStatus.done taskActiveSample) = true
    ∧ (employeeStatusUpdate TaskStatus.done taskActiveSample).status = TaskStatus.done
    ∧ (employeeStatusUpdate TaskStatus.done taskActiveSample).title
        = taskActiveSample.title
    ∧ (employeeStatusUpdate TaskStatus.done taskActiveSample).priority
        = taskActiveSample.priority
    ∧ (employeeStatusUpdate TaskStatus.done taskActiveSample).due_date
        = taskActiveSample.due_date
    ∧ (employeeStatusUpdate TaskStatus.done taskActiveSample).category
        = taskActiveSample.category
    ∧ (employeeStatusUpdate TaskStatus.done taskActiveSample).tags
        = taskActiveSample.tags
    ∧ (applyTaskUpdate dbSample 2 taskActiveSample.id
        (employeeStatusUpdate TaskStatus.done)).task_assignees
        = dbSample.task_assignees :=
  c3_assigned_employee_status_update dbSample 2 taskActiveSample TaskStatus.done
    (by decide) (by decide)

/-- Claim C5 (evaluation at the failing input): admin 1 attempting the permanent
delete of the already-soft-deleted task 11 is denied, because the migration
declares no DELETE policy on the tasks table; the denial for the non-admin
subject 2 is the only half of the claim that holds. -/
theorem c5_hard_delete_denied_even_for_admin :
    isAdminUid dbSample 1 = true
    ∧ taskDeletedSample.is_deleted = true
    ∧ taskDeleteAllowed dbSample 1 taskDeletedSample = false
    ∧ taskDeleteAllowed dbSample 2 taskDeletedSample = false := by
  decide

/-- Claim C6: the admin soft delete sets is_deleted = true and a non-null
deleted_at; the restore sets is_deleted = false and clears deleted_at; and
restoring a just-soft-deleted active task returns exactly the original row. -/
theorem c6_soft_delete_restore_roundtrip (t : TaskRow) (now : Nat)
    (h1 : t.is_deleted = false) (h2 : t.deleted_at = none) :
    (softDeleteUpdate now t).is_deleted = true
    ∧ (softDeleteUpdate now t).deleted_at = some now
    ∧ (softDeleteUpdate now t).deleted_at ≠ none
    ∧ (restoreUpdate (softDeleteUpdate now t)).is_deleted = false
    ∧ (restoreUpdate (softDeleteUpdate now t)).deleted_at = none
    ∧ restoreUpdate (softDeleteUpdate now t) = t := by
  refine ⟨rfl, rfl, by simp [softDeleteUpdate], rfl, rfl, ?_⟩
  cases t
  simp only [softDeleteUpdate, restoreUpdate] at *
  simp_all

/-- Witness for C6 at the active task 10 with deletion time 7. -/
theorem c6_soft_delete_restore_roundtrip_witness :
    (softDeleteUpdate 7 taskActiveSample).is_deleted = true
    ∧ (softDeleteUpdate 7 taskActiveSample).deleted_at = some 7
    ∧ (softDeleteUpdate 7 taskActiveSample).deleted_at ≠ none
    ∧ (restoreUpdate (softDeleteUpdate 7 taskActiveSample)).is_deleted = false
    ∧ (restoreUpdate (softDeleteUpdate 7 taskActiveSample)).deleted_at = none
    ∧ restoreUpdate (softDeleteUpdate 7 taskActiveSample) = taskActiveSample :=
  c6_soft_delete_restore_roundtrip taskActiveSample 7 (by decide) (by decide)

/-- A newly inserted auth.users row: the id and the (possibly absent) email,
the two columns the signup trigger reads. -/
structure AuthUser where
  id : Nat
  email : Option String
deriving DecidableEq, Repr

/-- Function handle_new_user: the body of the signup trigger inserts a profiles
row with username COALESCE(NEW.email, the concatenation of "user_" and the id),
role employee and status active; SECURITY DEFINER lets it bypass the insert
policy since the subject has no profile yet. -/
def handle_new_user (u : AuthUser) : ProfileRow :=
  { id := u.id,
    username :=
      match u.email with
      | some e => e
      | none => "user_" ++ toString u.id,
    role := Role.employee,
    status := AccountStatus.active }

/-- Trigger on_auth_user_created: AFTER INSERT ON auth.users FOR EACH ROW, so
creating one account appends exactly the one row built by handle_new_user. -/
def onAuthUserCreated (db : DB) (u : AuthUser) : DB :=
  { db with profiles := db.profiles ++ [handle_new_user u] }

/-- Claim C8: signup inserts exactly one profile row, with role employee,
status active, and username the email when present, otherwise the generated
placeholder derived from the account id. -/
theorem c8_signup_provisions_profile (db : DB) (u : AuthUser) :
    (onAuthUserCreated db u).profiles = db.profiles ++ [handle_new_user u]
    ∧ (onAuthUserCreated db u).profiles.length = db.profiles.length + 1
    ∧ (handle_new_user u).id = u.id
    ∧ (handle_new_user u).role = Role.employee
    ∧ (handle_new_user u).status = AccountStatus.active
    ∧ (∀ e, u.email = some e → (handle_new_user u).username = e)
    ∧ (u.email = none → (handle_new_user u).username = "user_" ++ toString u.id) := by
  refine ⟨rfl, by simp [onAuthUserCreated], rfl, rfl, rfl, ?_, ?_⟩
  · intro e he
    simp [handle_new_user, he]
  · intro he
    simp [handle_new_user, he]

/-- Witness for C8: an account with an email keeps it as username, one without
gets the generated placeholder. -/
theorem c8_signup_provisions_profile_witness :
    (handle_new_user { id := 7, email := some "dan" }).username = "dan"
    ∧ (handle_new_user { id := 8, email := none }).username = "user_" ++ toString 8 :=
  ⟨(c8_signup_provisions_profile dbSample { id := 7, email := some "dan" }).2.2.2.2.2.1
      "dan" rfl,
   (c8_signup_provisions_profile dbSample { id := 8, email := none }).2.2.2.2.2.2 rfl⟩

/-- Employee 2's own row with its role switched to admin. -/
def employeeProfileEscalated : ProfileRow :=
  { employeeProfileSample with role := Role.admin }

/-- Counterexample to C9 as stated: the self-update policy checks only row
identity, so the non-admin subject 2 is permitted to rewrite its own profile
row with role changed to admin: role and status are not left unchanged by
every permitted self-update. -/
theorem c9_counterexample_self_role_escalation :
    isAdminUid dbSample 2 = false
    ∧ profileUpdateAllowed dbSample 2 employeeProfileSample employeeProfileEscalated
        = true
    ∧ employeeProfileEscalated.role ≠ employeeProfileSample.role := by
  refine ⟨by decide, by decide, ?_⟩
  decide

/-- Modelled from the spec: the AuthContext updateProfile call is not among the
provided sources; per the spec a profile is mutated by self through the
username only, and the profile page passes exactly the new username, so the
client self-update rewrites the username column alone. -/
def updateProfileClient (newName : String) (p : ProfileRow) : ProfileRow :=
  { p with username := newName }

/-- Claim C9 (amended): the client self-update, which submits only the username,
is permitted to every subject on its own row and leaves role, status and id
unchanged; the policy layer itself constrains only row identity, so it does
not by itself keep role or status fixed on a self-update. -/
theorem c9_self_update_changes_username_only (db : DB) (uid : Nat)
    (p : ProfileRow) (newName : String) (h : p.id = uid) :
    profileUpdateAllowed db uid p (updateProfileClient newName p) = true
    ∧ (updateProfileClient newName p).username = newName
    ∧ (updateProfileClient newName p).role = p.role
    ∧ (updateProfileClient newName p).status = p.status
    ∧ (updateProfileClient newName p).id = p.id := by
  refine ⟨?_, rfl, rfl, rfl, rfl⟩
  simp [profileUpdateAllowed, profileSelectAllowed, updateProfileClient, h]

/-- Witness for the amended C9: employee 2 renaming itself is permitted and
keeps role and status. -/
theorem c9_self_update_changes_username_only_witness :
    profileUpdateAllowed dbSample 2 employeeProfileSample
      (updateProfileClient "bobby" employeeProfileSample) = true
    ∧ (updateProfileClient "bobby" employeeProfileSample).username = "bobby"
    ∧ (updateProfileClient "bobby" employeeProfileSample).role
        = employeeProfileSample.role
    ∧ (updateProfileClient "bobby" employeeProfileSample).status
        = employeeProfileSample.status
    ∧ (updateProfileClient "bobby" employeeProfileSample).id
        = employeeProfileSample.id :=
  c9_self_update_changes_username_only dbSample 2 employeeProfileSample "bobby"
    (by decide)

/-- Overwrite the account status of the profile row carrying the given id,
leaving every other column and every other table unchanged: the original and
the modified database differ only in that one subject's status. -/
def setProfileStatus (db : DB) (pid : Nat) (st : AccountStatus) : DB :=
  { db with
    profiles := db.profiles.map (fun p =>
      if p.id = pid then { p with status := st } else p) }

/-- The admin subquery never reads the status column, so it is unchanged when
any profile's status is overwritten. -/
theorem isAdminUid_setProfileStatus (db : DB) (pid : Nat) (st : AccountStatus)
    (uid : Nat) :
    isAdminUid (setProfileStatus db pid st) uid = isAdminUid db uid := by
  unfold isAdminUid setProfileStatus
  simp only []
  induction db.profiles with
  | nil => rfl
  | cons p ps ih =>
    simp only [List.map_cons, List.any_cons, ih]
    by_cases h : p.id = pid <;> simp [h]

/-- The assignee subquery reads only task_assignees, untouched by the status
overwrite. -/
theorem isAssignee_setProfileStatus (db : DB) (pid : Nat) (st : AccountStatus)
    (taskId uid : Nat) :
    isAssignee (setProfileStatus db pid st) taskId uid = isAssignee db taskId uid :=
  rfl

/-- The parent-task subquery reads only tasks, untouched by the status overwrite. -/
theorem parentNotDeleted_setProfileStatus (db : DB) (pid : Nat)
    (st : AccountStatus) (taskId : Nat) :
    parentNotDeleted (setProfileStatus db pid st) taskId = parentNotDeleted db taskId :=
  rfl

/-- Claim C10: overwriting any profile's account status (in particular turning
the subject itself from active to disabled) changes no authorization decision
other than profile SELECT visibility: the task, assignment, comment and
attachment decisions for every action, and the profile INSERT and UPDATE
decisions, all evaluate identically on the two databases. -/
theorem c10_decisions_independent_of_account_status (db : DB) (pid : Nat)
    (st : AccountStatus) (uid : Nat) :
    isAdminUid (setProfileStatus db pid st) uid = isAdminUid db uid
    ∧ (∀ taskId, isAssignee (setProfileStatus db pid st) taskId uid
        = isAssignee db taskId uid)
    ∧ (∀ t, taskSelectAllowed (setProfileStatus db pid st) uid t
        = taskSelectAllowed db uid t)
    ∧ taskInsertAllowed (setProfileStatus db pid st) uid = taskInsertAllowed db uid
    ∧ (∀ told tnew, taskUpdateAllowed (setProfileStatus db pid st) uid told tnew
        = taskUpdateAllowed db uid told tnew)
    ∧ (∀ t, taskDeleteAllowed (setProfileStatus db pid st) uid t
        = taskDeleteAllowed db uid t)
    ∧ (∀ a, assigneeSelectAllowed (setProfileStatus db pid st) uid a
        = assigneeSelectAllowed db uid a)
    ∧ (∀ a, assigneeInsertAllowed (setProfileStatus db pid st) uid a
        = assigneeInsertAllowed db uid a)
    ∧ (∀ a, assigneeDeleteAllowed (setProfileStatus db pid st) uid a
        = assigneeDeleteAllowed db uid a)
    ∧ (∀ c, commentSelectAllowed (setProfileStatus db pid st) uid c
        = commentSelectAllowed db uid c)
    ∧ (∀ c, commentInsertAllowed (setProfileStatus db pid st) uid c
        = commentInsertAllowed db uid c)
    ∧ (∀ cold cnew, commentUpdateAllowed (setProfileStatus db pid st) uid cold cnew
        = commentUpdateAllowed db uid cold cnew)
    ∧ (∀ c, commentDeleteAllowed (setProfileStatus db pid st) uid c
        = commentDeleteAllowed db uid c)
    ∧ (∀ a, attachmentSelectAllowed (setProfileStatus db pid st) uid a
        = attachmentSelectAllowed db uid a)
    ∧ (∀ a, attachmentInsertAllowed (setProfileStatus db pid st) uid a
        = attachmentInsertAllowed db uid a)
    ∧ (∀ a, attachmentDeleteAllowed (setProfileStatus db pid st) uid a
        = attachmentDeleteAllowed db uid a)
    ∧ (∀ p, profileInsertAllowed (setProfileStatus db pid st) uid p
        = profileInsertAllowed db uid p)
    ∧ (∀ pold pnew, profileUpdateAllowed (setProfileStatus db pid st) uid pold pnew
        = profileUpdateAllowed db uid pold pnew) := by
  have hadmin := isAdminUid_setProfileStatus db pid st uid
  refine ⟨hadmin, fun taskId => rfl, ?_, hadmin, ?_, fun t => rfl, fun a => rfl,
    ?_, ?_, fun c => rfl, fun c => rfl, fun cold cnew => rfl, fun c => rfl,
    fun a => rfl, fun a => rfl, ?_, fun p => rfl, ?_⟩
  · intro t
    simp [taskSelectAllowed, tasksSelectDeleted, hadmin]
  · intro told tnew
    simp [taskUpdateAllowed, taskSelectAllowed, tasksSelectDeleted,
      tasksUpdateAdmin, tasksUpdateEmployeeUsing, tasksUpdateEmployeeCheck,
      isAssignee_setProfileStatus, hadmin]
  · intro a
    simp [assigneeInsertAllowed, hadmin]
  · intro a
    simp [assigneeDeleteAllowed, assigneeSelectAllowed, hadmin]
  · intro a
    simp [attachmentDeleteAllowed, attachmentSelectAllowed,
      parentNotDeleted_setProfileStatus, hadmin]
  · intro pold pnew
    simp [profileUpdateAllowed, profileSelectAllowed, hadmin]
